import Mathlib

/-!
Shallow embedding of the tech-data-integration-frontend core:
the SPARQL query builder (`src/app/services/api.service.ts`, `getGraphData`)
and the filter/pagination controller (`src/app/ui/tech-data.component.ts`).

Strings are rendered exactly as the TypeScript template literals render them
(literal braces are written with `\x7b`/`\x7d` escapes). TypeScript arrays
become `List String`, nullable numbers become `Option Int`, observable
results become `Except Unit (List String)` (`.error` standing for a failed
HTTP call), and the component's mutable fields become a `ComponentState`
record threaded through the handler functions.
-/

/-- `xs.map(c => `"${c}"`).join(',')` from `getGraphData`. -/
def quoteJoin (xs : List String) : String :=
  String.intercalate "," (xs.map (fun c => "\"" ++ c ++ "\""))

/-- The base graph pattern emitted whenever any category level is selected
(`api.service.ts` lines 34-37). -/
def catPatternBase : String :=
  "\n        ?product :hasCategory ?cat .\n        ?cat rdfs:label ?catName .\n      "

/-- `categoryFilters` accumulation from `getGraphData` (`api.service.ts` lines 30-63):
hierarchical precedence endCategories, else subCategories, else categories. -/
def categoryFilters (categories subCategories endCategories : List String) : String :=
  if !endCategories.isEmpty || !subCategories.isEmpty || !categories.isEmpty then
    let filterConditions : List String :=
      if !endCategories.isEmpty then
        ["?catName IN (" ++ quoteJoin endCategories ++ ")"]
      else if !subCategories.isEmpty then
        ["?catName IN (" ++ quoteJoin subCategories ++ ")"]
      else if !categories.isEmpty then
        ["?catName IN (" ++ quoteJoin categories ++ ")"]
      else []
    if !filterConditions.isEmpty then
      catPatternBase ++ ("FILTER(" ++ String.intercalate " || " filterConditions ++ ")")
    else
      catPatternBase
  else ""

/-- `storeFilters` from `getGraphData` (`api.service.ts` lines 66-74). -/
def storeFilters (selectedStores : List String) : String :=
  if !selectedStores.isEmpty then
    "\n        ?product :soldBy ?storeNode .\n        ?storeNode rdfs:label ?storeName .\n        FILTER(?storeName IN (" ++ quoteJoin selectedStores ++ "))\n      "
  else ""

/-- `priceDiscountFilters` from `getGraphData` (`api.service.ts` lines 77-81). -/
def priceDiscountFilters (minPrice maxPrice minDiscount maxDiscount : Option Int) : String :=
  (match minPrice with
   | some v => "FILTER(xsd:decimal(?regularPrice) >= " ++ toString v ++ ")\n"
   | none => "") ++
  (match maxPrice with
   | some v => "FILTER(xsd:decimal(?regularPrice) <= " ++ toString v ++ ")\n"
   | none => "") ++
  (match minDiscount with
   | some v => "FILTER(xsd:decimal(?discountPercent) >= " ++ toString v ++ ")\n"
   | none => "") ++
  (match maxDiscount with
   | some v => "FILTER(xsd:decimal(?discountPercent) <= " ++ toString v ++ ")\n"
   | none => "")

/-- The three filter fragments interpolated into the paginated subquery
(`api.service.ts` lines 105-107). -/
def paginatedSubqueryFilters (categories subCategories endCategories : List String)
    (minPrice maxPrice minDiscount maxDiscount : Option Int)
    (selectedStores : List String) : String × String × String :=
  (categoryFilters categories subCategories endCategories,
   storeFilters selectedStores,
   priceDiscountFilters minPrice maxPrice minDiscount maxDiscount)

/-- The three filter fragments interpolated into the total-count subquery
(`api.service.ts` lines 125-127): the same local variables `categoryFilters`,
`storeFilters` and `priceDiscountFilters` are interpolated a second time. -/
def countSubqueryFilters (categories subCategories endCategories : List String)
    (minPrice maxPrice minDiscount maxDiscount : Option Int)
    (selectedStores : List String) : String × String × String :=
  (categoryFilters categories subCategories endCategories,
   storeFilters selectedStores,
   priceDiscountFilters minPrice maxPrice minDiscount maxDiscount)

/-- Fixed text of the main query up to and including `WHERE \x7b`
(`api.service.ts` lines 83-89). -/
def queryHeader : String :=
  "\n    PREFIX : <http://www.semanticweb.org/andrej/ontologies/2025/7/products-ontology/>\n    PREFIX rdfs: <http://www.w3.org/2000/01/rdf-schema#>\n    PREFIX xsd: <http://www.w3.org/2001/XMLSchema#>\n\n    SELECT ?product ?title ?store ?fullCategory ?regularPrice ?discountedPrice ?discountPercent ?url ?totalCount\n    WHERE \x7b\n"

/-- Fixed text of the paginated subquery before the interpolated filters
(`api.service.ts` lines 91-104). -/
def paginatedSubqueryPrefix : String :=
  "\n      # --- Paginated data subquery ---\n      \x7b\n        SELECT ?product ?title ?store (GROUP_CONCAT(DISTINCT ?categoryLabel; SEPARATOR=\" > \") AS ?fullCategory)\n              ?regularPrice ?discountedPrice ?discountPercent ?url\n        WHERE \x7b\n          ?product a :Product .\n          OPTIONAL \x7b ?product :hasTitle ?title . \x7d\n          OPTIONAL \x7b ?product :soldBy [ rdfs:label ?store ] . \x7d\n          OPTIONAL \x7b ?product :hasRegularPrice ?regularPrice . \x7d\n          OPTIONAL \x7b ?product :hasDiscountedPrice ?discountedPrice . \x7d\n          OPTIONAL \x7b ?product :hasDiscountPercent ?discountPercent . \x7d\n          OPTIONAL \x7b ?product :hasUrl ?url . \x7d\n          OPTIONAL \x7b ?product :hasCategory ?anyCat . ?anyCat rdfs:label ?categoryLabel . \x7d\n\n          "

/-- Rendered paginated subquery (`api.service.ts` lines 91-113): filters, then
`GROUP BY`/`ORDER BY`, then `LIMIT ${limit}` and `OFFSET ${offset}`. -/
def paginatedSubquery (limit offset : Int) (catF storeF priceF : String) : String :=
  paginatedSubqueryPrefix ++ catF ++ "\n          " ++ storeF ++ "\n          " ++ priceF ++
  "\n        \x7d\n        GROUP BY ?product ?title ?store ?regularPrice ?discountedPrice ?discountPercent ?url\n        ORDER BY ?title\n        LIMIT " ++
  toString limit ++ "\n        " ++ "OFFSET " ++ toString offset ++ "\n      \x7d\n"

/-- Rendered total-count subquery plus the query's closing brace
(`api.service.ts` lines 115-130). -/
def countSubqueryText (catF storeF priceF : String) : String :=
  "\n      # --- Total count subquery ---\n      \x7b\n        SELECT (COUNT(DISTINCT ?product) AS ?totalCount)\n        WHERE \x7b\n          ?product a :Product .\n          OPTIONAL \x7b ?product :hasRegularPrice ?regularPrice . \x7d\n          OPTIONAL \x7b ?product :hasDiscountPercent ?discountPercent . \x7d\n          OPTIONAL \x7b ?product :hasCategory ?cat . ?cat rdfs:label ?catName . \x7d\n          OPTIONAL \x7b ?product :soldBy ?storeNode . ?storeNode rdfs:label ?storeName . \x7d\n\n          " ++
  catF ++ "\n          " ++ storeF ++ "\n          " ++ priceF ++ "\n        \x7d\n      \x7d\n    \x7d"

/-- The full SPARQL query string rendered by `getGraphData`
(`api.service.ts` lines 17-133). -/
def getGraphDataQuery (limit offset : Int) (categories subCategories endCategories : List String)
    (minPrice maxPrice minDiscount maxDiscount : Option Int)
    (selectedStores : List String) : String :=
  let pf := paginatedSubqueryFilters categories subCategories endCategories
              minPrice maxPrice minDiscount maxDiscount selectedStores
  let cf := countSubqueryFilters categories subCategories endCategories
              minPrice maxPrice minDiscount maxDiscount selectedStores
  queryHeader ++ paginatedSubquery limit offset pf.1 pf.2.1 pf.2.2 ++
    countSubqueryText cf.1 cf.2.1 cf.2.2

/-- One SPARQL JSON binding value `{ type, value }` (`tech-data.component.ts` lines 9-14). -/
structure SparqlValue where
  type : String
  value : String
deriving DecidableEq

/-- One result row: a mapping from variable name to its value. -/
abbrev SparqlBinding := List (String × SparqlValue)

/-- A JavaScript runtime exception (here: property access on `undefined`). -/
inductive JsError where
  | typeError
deriving DecidableEq

/-- The mutable fields of `TechDataComponent` that the handler functions touch
(`tech-data.component.ts` lines 23-58). -/
structure ComponentState where
  categories : List String
  subCategories : List String
  endCategories : List String
  stores : List String
  selectedCategories : List String
  selectedSubCategories : List String
  selectedEndCategories : List String
  selectedStores : List String
  minPrice : Option Int
  maxPrice : Option Int
  minDiscount : Option Int
  maxDiscount : Option Int
  tableData : List SparqlBinding
  isLoading : Bool
  error : Option String
  pageSize : Int
  currentPage : Int
  totalPages : Int
deriving DecidableEq

/-- Field initializers of `TechDataComponent` (`tech-data.component.ts` lines 25-50). -/
def initialState : ComponentState where
  categories := []
  subCategories := []
  endCategories := []
  stores := []
  selectedCategories := []
  selectedSubCategories := []
  selectedEndCategories := []
  selectedStores := []
  minPrice := none
  maxPrice := none
  minDiscount := none
  maxDiscount := none
  tableData := []
  isLoading := true
  error := none
  pageSize := 30
  currentPage := 1
  totalPages := 1

/-- Digits of a decimal numeral, most significant first; `none` on a non-digit. -/
def jsDigits : List Char → Option Nat
  | [] => some 0
  | c :: cs =>
    if c.isDigit then
      (jsDigits cs).map (fun rest => (c.toNat - 48) * 10 ^ cs.length + rest)
    else none

/-- JavaScript unary `+` applied to a string, restricted to the shapes the
component receives (canonical non-negative decimal numerals from the SPARQL
JSON results, and the empty string which converts to 0); `none` stands for
`NaN`. -/
def jsStringToNumber (s : String) : Option Nat :=
  match s.data with
  | [] => some 0
  | l => jsDigits l

/-- `Math.ceil(+value / pageSize) || 1` from `fetchData`
(`tech-data.component.ts` line 300): `none` (NaN) and a ceiling of 0 are both
falsy and fall back to 1. -/
def computeTotalPages (value : String) (pageSize : ℚ) : ℤ :=
  match jsStringToNumber value with
  | none => 1
  | some n =>
    let c := ⌈(n : ℚ) / pageSize⌉
    if c = 0 then 1 else c

/-- Insertion into a JavaScript `Set` while iterating: keep the first
occurrence of each element, in order, skipping elements already seen. -/
def jsSetDedupGo (seen : List String) : List String → List String
  | [] => []
  | x :: xs => if x ∈ seen then jsSetDedupGo seen xs else x :: jsSetDedupGo (x :: seen) xs

/-- `[...new Set(xs)]` (`tech-data.component.ts` lines 193 and 231). -/
def jsSetDedup (l : List String) : List String := jsSetDedupGo [] l

/-- `pipe(map(...), catchError(() => of([])))` applied to one lookup's outcome
(`tech-data.component.ts` lines 183-186 and 223-225): an errored call
contributes an empty list. -/
def cascadeResult : Except Unit (List String) → List String
  | .ok l => l
  | .error _ => []

/-- The parents for which `loadSubCategories` creates lookup observables
(`tech-data.component.ts` lines 177-187): none at all when the selection is
empty (early return before the `map`). -/
def subCategoryRequests (s : ComponentState) : List String :=
  if s.selectedCategories.isEmpty then [] else s.selectedCategories

/-- `loadSubCategories` (`tech-data.component.ts` lines 170-195): clear all
downstream state, return early on an empty selection, otherwise merge the
per-parent lookup results (errors degraded to `[]`), flattened and
deduplicated via a `Set`. `lookup` stands for `apiService.getSubCategories`. -/
def loadSubCategories (s : ComponentState)
    (lookup : String → Except Unit (List String)) : ComponentState :=
  let s1 := { s with subCategories := [], selectedSubCategories := [],
                     endCategories := [], selectedEndCategories := [] }
  if s1.selectedCategories.isEmpty then s1
  else
    let results := s1.selectedCategories.map (fun cat => cascadeResult (lookup cat))
    { s1 with subCategories := jsSetDedup results.flatten }

/-- The parents for which `loadEndCategories` creates lookup observables
(`tech-data.component.ts` lines 218-227). -/
def endCategoryRequests (s : ComponentState) : List String :=
  if s.selectedSubCategories.isEmpty then [] else s.selectedSubCategories

/-- `loadEndCategories` (`tech-data.component.ts` lines 214-233). `lookup`
stands for `apiService.getEndCategories`. -/
def loadEndCategories (s : ComponentState)
    (lookup : String → Except Unit (List String)) : ComponentState :=
  let s1 := { s with endCategories := [], selectedEndCategories := [] }
  if s1.selectedSubCategories.isEmpty then s1
  else
    let results := s1.selectedSubCategories.map (fun sub => cascadeResult (lookup sub))
    { s1 with endCategories := jsSetDedup results.flatten }

/-- `onCategoryChange` (`tech-data.component.ts` lines 144-154): push or filter
the category, then refresh subcategories. -/
def onCategoryChange (s : ComponentState) (category : String) (isChecked : Bool)
    (lookup : String → Except Unit (List String)) : ComponentState :=
  let s1 :=
    if isChecked then
      { s with selectedCategories := s.selectedCategories ++ [category] }
    else
      { s with selectedCategories := s.selectedCategories.filter (fun c => c != category) }
  loadSubCategories s1 lookup

/-- The four chip kinds of `removeChip` (`tech-data.component.ts` line 251). -/
inductive ChipType where
  | category
  | sub
  | endCat
  | store
deriving DecidableEq

/-- `removeChip` (`tech-data.component.ts` lines 251-268). `subLookup` and
`endLookup` stand for the two cascade lookup services. -/
def removeChip (s : ComponentState) (t : ChipType) (value : String)
    (subLookup endLookup : String → Except Unit (List String)) : ComponentState :=
  match t with
  | .category =>
      loadSubCategories
        { s with selectedCategories := s.selectedCategories.filter (fun c => c != value) }
        subLookup
  | .sub =>
      loadEndCategories
        { s with selectedSubCategories := s.selectedSubCategories.filter (fun c => c != value) }
        endLookup
  | .endCat =>
      { s with selectedEndCategories := s.selectedEndCategories.filter (fun c => c != value) }
  | .store =>
      { s with selectedStores := s.selectedStores.filter (fun c => c != value) }

/-- `const offset = (this.currentPage - 1) * this.pageSize`
(`tech-data.component.ts` line 284). -/
def fetchDataOffset (s : ComponentState) : Int :=
  (s.currentPage - 1) * s.pageSize

/-- The query string `fetchData` asks `getGraphData` to run
(`tech-data.component.ts` lines 286-297). -/
def fetchDataQuery (s : ComponentState) : String :=
  getGraphDataQuery s.pageSize (fetchDataOffset s)
    s.selectedCategories s.selectedSubCategories s.selectedEndCategories
    s.minPrice s.maxPrice s.minDiscount s.maxDiscount s.selectedStores

/-- State changes `fetchData` performs before issuing the request
(`tech-data.component.ts` lines 282-283). -/
def fetchDataStart (s : ComponentState) : ComponentState :=
  { s with isLoading := true, error := none }

/-- The `next` handler of `fetchData` (`tech-data.component.ts` lines 298-302):
store the bindings, then read `this.tableData[0]['totalCount'].value`. Reading
index 0 of an empty array yields `undefined`, and the subsequent property
access throws a `TypeError`; likewise when row 0 has no `totalCount` variable. -/
def fetchDataNext (s : ComponentState) (bindings : List SparqlBinding) :
    Except JsError ComponentState :=
  let s1 := { s with tableData := bindings }
  match bindings[0]? with
  | none => .error .typeError
  | some row =>
    match row.lookup "totalCount" with
    | none => .error .typeError
    | some v =>
      .ok { s1 with
            totalPages := computeTotalPages v.value (s.pageSize : ℚ),
            isLoading := false }

/-- The `error` handler of `fetchData` (`tech-data.component.ts` lines 303-307). -/
def fetchDataError (s : ComponentState) : ComponentState :=
  { s with error := some "Failed to fetch data from GraphDB. Please try again.",
           isLoading := false }

/-- `goToPage` (`tech-data.component.ts` lines 326-333) up to the recursive
fetch: `Number(input.value)` is modelled as `Option Int` (`none` for NaN);
NaN or a value below 1 becomes 1, then the result is capped at `totalPages`. -/
def goToPage (s : ComponentState) (inputValue : Option Int) : ComponentState :=
  let page1 : Int :=
    match inputValue with
    | none => 1
    | some p => if p < 1 then 1 else p
  let page2 : Int := if page1 > s.totalPages then s.totalPages else page1
  { s with currentPage := page2 }

/-! ### Helper lemmas -/

theorem str_append_assoc (a b c : String) : a ++ b ++ c = a ++ (b ++ c) := by
  apply String.ext
  simp [String.data_append]

theorem intercalate_singleton (sep x : String) : String.intercalate sep [x] = x := rfl

theorem jsSetDedupGo_mem (l : List String) :
    ∀ (seen : List String) (x : String),
      x ∈ jsSetDedupGo seen l ↔ x ∈ l ∧ x ∉ seen := by
  induction l with
  | nil => simp [jsSetDedupGo]
  | cons a as ih =>
    intro seen x
    simp only [jsSetDedupGo]
    split
    · rename_i h
      rw [ih]
      simp only [List.mem_cons]
      constructor
      · rintro ⟨h1, h2⟩; exact ⟨Or.inr h1, h2⟩
      · rintro ⟨h1 | h1, h2⟩
        · subst h1; exact absurd h h2
        · exact ⟨h1, h2⟩
    · rename_i h
      simp only [List.mem_cons, ih]
      constructor
      · rintro (rfl | ⟨h1, h2⟩)
        · exact ⟨Or.inl rfl, h⟩
        · exact ⟨Or.inr h1, fun hx => h2 (Or.inr hx)⟩
      · rintro ⟨rfl | h1, h2⟩
        · exact Or.inl rfl
        · by_cases hxa : x = a
          · exact Or.inl hxa
          · exact Or.inr ⟨h1, fun hx => hx.elim hxa h2⟩

theorem jsSetDedupGo_nodup (l : List String) :
    ∀ seen : List String, (jsSetDedupGo seen l).Nodup := by
  induction l with
  | nil => intro seen; simp [jsSetDedupGo]
  | cons a as ih =>
    intro seen
    simp only [jsSetDedupGo]
    split
    · exact ih seen
    · refine List.nodup_cons.mpr ⟨fun hx => ?_, ih (a :: seen)⟩
      rw [jsSetDedupGo_mem] at hx
      exact hx.2 (List.mem_cons_self a seen)

theorem jsSetDedup_mem (l : List String) (x : String) : x ∈ jsSetDedup l ↔ x ∈ l := by
  simp [jsSetDedup, jsSetDedupGo_mem]

theorem jsSetDedup_nodup (l : List String) : (jsSetDedup l).Nodup :=
  jsSetDedupGo_nodup l []

/-! ### Claim theorems -/

/-- C1: `getGraphData` applies exactly one category-filter branch, most
specific first: non-empty `endCategories` renders a filter over exactly the
`endCategories` set; otherwise non-empty `subCategories` renders one over
exactly the `subCategories` set; otherwise non-empty `categories` renders one
over exactly the `categories` set; and with all three empty no category filter
is emitted at all. -/
theorem categoryFilters_precedence (categories subCategories endCategories : List String) :
    (endCategories ≠ [] →
      categoryFilters categories subCategories endCategories =
        catPatternBase ++
          ("FILTER(" ++ ("?catName IN (" ++ quoteJoin endCategories ++ ")") ++ ")")) ∧
    (endCategories = [] → subCategories ≠ [] →
      categoryFilters categories subCategories endCategories =
        catPatternBase ++
          ("FILTER(" ++ ("?catName IN (" ++ quoteJoin subCategories ++ ")") ++ ")")) ∧
    (endCategories = [] → subCategories = [] → categories ≠ [] →
      categoryFilters categories subCategories endCategories =
        catPatternBase ++
          ("FILTER(" ++ ("?catName IN (" ++ quoteJoin categories ++ ")") ++ ")")) ∧
    (endCategories = [] → subCategories = [] → categories = [] →
      categoryFilters categories subCategories endCategories = "") := by
  refine ⟨?_, ?_, ?_, ?_⟩
  · intro he
    obtain ⟨e, es, rfl⟩ := List.exists_cons_of_ne_nil he
    simp [categoryFilters, intercalate_singleton]
  · intro he hs
    obtain ⟨a, as, rfl⟩ := List.exists_cons_of_ne_nil hs
    subst he
    simp [categoryFilters, intercalate_singleton]
  · intro he hs hc
    obtain ⟨a, as, rfl⟩ := List.exists_cons_of_ne_nil hc
    subst he; subst hs
    simp [categoryFilters, intercalate_singleton]
  · intro he hs hc
    subst he; subst hs; subst hc
    simp [categoryFilters]

/-- C1 witness: the Laptops scenario exercises the categories-only branch, and
concrete inputs exercise the other three branches. -/
theorem categoryFilters_precedence_witness :
    categoryFilters ["Laptops"] [] [] =
      catPatternBase ++ ("FILTER(" ++ ("?catName IN (" ++ quoteJoin ["Laptops"] ++ ")") ++ ")") ∧
    categoryFilters ["A"] ["B"] ["C"] =
      catPatternBase ++ ("FILTER(" ++ ("?catName IN (" ++ quoteJoin ["C"] ++ ")") ++ ")") ∧
    categoryFilters ["A"] ["B"] [] =
      catPatternBase ++ ("FILTER(" ++ ("?catName IN (" ++ quoteJoin ["B"] ++ ")") ++ ")") ∧
    categoryFilters [] [] [] = "" :=
  ⟨(categoryFilters_precedence ["Laptops"] [] []).2.2.1 rfl rfl (by decide),
   (categoryFilters_precedence ["A"] ["B"] ["C"]).1 (by decide),
   (categoryFilters_precedence ["A"] ["B"] []).2.1 rfl (by decide),
   (categoryFilters_precedence [] [] []).2.2.2 rfl rfl rfl⟩

/-- C2: the `next` handler of `fetchData` does not handle an empty bindings
list: it evaluates `this.tableData[0]['totalCount']` on an empty array, which
throws a `TypeError` instead of producing a defined page-1-of-1 state. -/
theorem fetchDataNext_empty_bindings_throws :
    fetchDataNext initialState [] = Except.error JsError.typeError := rfl

/-- C7: the `error` handler of `fetchData` sets the user-visible error string,
clears the loading flag, and leaves the prior table contents, current page and
total pages unchanged. -/
theorem fetchData_error_handler (s : ComponentState) :
    (fetchDataError s).error = some "Failed to fetch data from GraphDB. Please try again." ∧
    (fetchDataError s).isLoading = false ∧
    (fetchDataError s).tableData = s.tableData ∧
    (fetchDataError s).currentPage = s.currentPage ∧
    (fetchDataError s).totalPages = s.totalPages :=
  ⟨rfl, rfl, rfl, rfl, rfl⟩

/-- C9: the count subquery is built from exactly the same filter fragments
(category, store, price/discount) as the paginated subquery, for every filter
input. -/
theorem countFilters_eq_paginatedFilters (categories subCategories endCategories : List String)
    (minPrice maxPrice minDiscount maxDiscount : Option Int) (selectedStores : List String) :
    paginatedSubqueryFilters categories subCategories endCategories
        minPrice maxPrice minDiscount maxDiscount selectedStores =
      countSubqueryFilters categories subCategories endCategories
        minPrice maxPrice minDiscount maxDiscount selectedStores := rfl

/-- C3: `totalPages` is the ceiling of totalCount over the fixed pageSize with
a minimum of 1: a totalCount of 0 yields 1 (never 0), and the string "61" with
pageSize 30 yields 3. -/
theorem computeTotalPages_ceil :
    (∀ (v : String) (n : ℕ), jsStringToNumber v = some n →
        computeTotalPages v 30 = max ⌈(n : ℚ) / 30⌉ 1) ∧
    computeTotalPages "0" 30 = 1 ∧
    computeTotalPages "61" 30 = 3 := by
  have main : ∀ (v : String) (n : ℕ), jsStringToNumber v = some n →
      computeTotalPages v 30 = max ⌈(n : ℚ) / 30⌉ 1 := by
    intro v n h
    have h0 : (0 : ℤ) ≤ ⌈(n : ℚ) / 30⌉ := Int.ceil_nonneg (by positivity)
    simp only [computeTotalPages, h]
    rcases eq_or_ne (⌈(n : ℚ) / 30⌉) 0 with h1 | h1
    · rw [if_pos h1, h1]
      norm_num
    · rw [if_neg h1]
      omega
  refine ⟨main, ?_, ?_⟩
  · have h := main "0" 0 (by decide)
    rw [h]
    norm_num
  · have h := main "61" 61 (by decide)
    have hc : (⌈((61 : ℕ) : ℚ) / 30⌉ : ℤ) = 3 := by
      push_cast
      norm_num [Int.ceil_eq_iff]
    rw [h, hc]
    norm_num

/-- C3 witness: the "61" scenario satisfies the parse hypothesis, and the
theorem evaluates it. -/
theorem computeTotalPages_ceil_witness :
    jsStringToNumber "61" = some 61 ∧
    computeTotalPages "61" 30 = max ⌈((61 : ℕ) : ℚ) / 30⌉ 1 :=
  ⟨by decide, computeTotalPages_ceil.1 "61" 61 (by decide)⟩

/-- C4: the offset embedded in the rendered paginated query equals
`(currentPage - 1) * pageSize` for every currentPage ≥ 1. -/
theorem fetchDataQuery_offset (s : ComponentState) (h : 1 ≤ s.currentPage) :
    fetchDataOffset s = (s.currentPage - 1) * s.pageSize ∧
    ∃ pre post : String,
      fetchDataQuery s =
        pre ++ ("OFFSET " ++ toString ((s.currentPage - 1) * s.pageSize)) ++ post := by
  refine ⟨rfl, ?_⟩
  refine ⟨queryHeader ++ paginatedSubqueryPrefix ++
      categoryFilters s.selectedCategories s.selectedSubCategories s.selectedEndCategories ++
      "\n          " ++ storeFilters s.selectedStores ++ "\n          " ++
      priceDiscountFilters s.minPrice s.maxPrice s.minDiscount s.maxDiscount ++
      "\n        \x7d\n        GROUP BY ?product ?title ?store ?regularPrice ?discountedPrice ?discountPercent ?url\n        ORDER BY ?title\n        LIMIT " ++
      toString s.pageSize ++ "\n        ",
    "\n      \x7d\n" ++
      countSubqueryText
        (categoryFilters s.selectedCategories s.selectedSubCategories s.selectedEndCategories)
        (storeFilters s.selectedStores)
        (priceDiscountFilters s.minPrice s.maxPrice s.minDiscount s.maxDiscount), ?_⟩
  simp only [fetchDataQuery, getGraphDataQuery, paginatedSubqueryFilters, countSubqueryFilters,
    paginatedSubquery, fetchDataOffset, str_append_assoc]

/-- C4 witness: pageSize 30 and currentPage 3 place `OFFSET 60` in the
rendered query. -/
theorem fetchDataQuery_offset_witness :
    1 ≤ ({ initialState with currentPage := 3 } : ComponentState).currentPage ∧
    (fetchDataOffset { initialState with currentPage := 3 } =
        (({ initialState with currentPage := 3 } : ComponentState).currentPage - 1) *
          ({ initialState with currentPage := 3 } : ComponentState).pageSize ∧
      ∃ pre post : String,
        fetchDataQuery { initialState with currentPage := 3 } =
          pre ++ ("OFFSET " ++ toString (60 : ℤ)) ++ post) :=
  ⟨by decide, fetchDataQuery_offset { initialState with currentPage := 3 } (by decide)⟩

/-- C5: toggling off the only selected top category — via `onCategoryChange`
unchecked or `removeChip` of kind category — leaves the selected categories
empty and empties the subcategory options, selected subcategories, end-category
options and selected end categories. -/
theorem toggle_off_only_category (s : ComponentState) (c : String)
    (lookup subLookup endLookup : String → Except Unit (List String))
    (h : s.selectedCategories = [c]) :
    ((onCategoryChange s c false lookup).selectedCategories = [] ∧
     (onCategoryChange s c false lookup).subCategories = [] ∧
     (onCategoryChange s c false lookup).selectedSubCategories = [] ∧
     (onCategoryChange s c false lookup).endCategories = [] ∧
     (onCategoryChange s c false lookup).selectedEndCategories = []) ∧
    ((removeChip s .category c subLookup endLookup).selectedCategories = [] ∧
     (removeChip s .category c subLookup endLookup).subCategories = [] ∧
     (removeChip s .category c subLookup endLookup).selectedSubCategories = [] ∧
     (removeChip s .category c subLookup endLookup).endCategories = [] ∧
     (removeChip s .category c subLookup endLookup).selectedEndCategories = []) := by
  have hf : s.selectedCategories.filter (fun x => x != c) = [] := by
    rw [h]
    simp
  constructor <;> simp [onCategoryChange, removeChip, loadSubCategories, hf]

/-- C5 witness: removing "Laptops" as the only selected category empties every
downstream level. -/
theorem toggle_off_only_category_witness :
    (({ initialState with selectedCategories := ["Laptops"] } :
        ComponentState).selectedCategories = ["Laptops"]) ∧
    (((onCategoryChange { initialState with selectedCategories := ["Laptops"] } "Laptops" false
        (fun _ => Except.ok [])).selectedCategories = [] ∧
      (onCategoryChange { initialState with selectedCategories := ["Laptops"] } "Laptops" false
        (fun _ => Except.ok [])).subCategories = [] ∧
      (onCategoryChange { initialState with selectedCategories := ["Laptops"] } "Laptops" false
        (fun _ => Except.ok [])).selectedSubCategories = [] ∧
      (onCategoryChange { initialState with selectedCategories := ["Laptops"] } "Laptops" false
        (fun _ => Except.ok [])).endCategories = [] ∧
      (onCategoryChange { initialState with selectedCategories := ["Laptops"] } "Laptops" false
        (fun _ => Except.ok [])).selectedEndCategories = []) ∧
     ((removeChip { initialState with selectedCategories := ["Laptops"] } .category "Laptops"
        (fun _ => Except.ok []) (fun _ => Except.ok [])).selectedCategories = [] ∧
      (removeChip { initialState with selectedCategories := ["Laptops"] } .category "Laptops"
        (fun _ => Except.ok []) (fun _ => Except.ok [])).subCategories = [] ∧
      (removeChip { initialState with selectedCategories := ["Laptops"] } .category "Laptops"
        (fun _ => Except.ok []) (fun _ => Except.ok [])).selectedSubCategories = [] ∧
      (removeChip { initialState with selectedCategories := ["Laptops"] } .category "Laptops"
        (fun _ => Except.ok []) (fun _ => Except.ok [])).endCategories = [] ∧
      (removeChip { initialState with selectedCategories := ["Laptops"] } .category "Laptops"
        (fun _ => Except.ok []) (fun _ => Except.ok [])).selectedEndCategories = [])) :=
  ⟨rfl, toggle_off_only_category { initialState with selectedCategories := ["Laptops"] } "Laptops"
    (fun _ => Except.ok []) (fun _ => Except.ok []) (fun _ => Except.ok []) rfl⟩

/-- C6: a cascade re-derivation issues one lookup per selected parent and
publishes the deduplicated union of the results, with an errored lookup
contributing an empty list for its parent rather than failing the cascade
(both cascade functions are total): an option is published iff some selected
parent's degraded lookup result contains it. -/
theorem cascade_merge (s : ComponentState)
    (subLookup endLookup : String → Except Unit (List String)) :
    (s.selectedCategories ≠ [] →
      subCategoryRequests s = s.selectedCategories ∧
      ∀ x, x ∈ (loadSubCategories s subLookup).subCategories ↔
        ∃ c ∈ s.selectedCategories, x ∈ cascadeResult (subLookup c)) ∧
    (s.selectedSubCategories ≠ [] →
      endCategoryRequests s = s.selectedSubCategories ∧
      ∀ x, x ∈ (loadEndCategories s endLookup).endCategories ↔
        ∃ c ∈ s.selectedSubCategories, x ∈ cascadeResult (endLookup c)) := by
  constructor
  · intro h
    cases hsel : s.selectedCategories with
    | nil => exact absurd hsel h
    | cons a as =>
      constructor
      · simp [subCategoryRequests, hsel]
      · intro x
        simp [loadSubCategories, hsel, jsSetDedup_mem, List.mem_flatten, List.mem_map]
  · intro h
    cases hsel : s.selectedSubCategories with
    | nil => exact absurd hsel h
    | cons a as =>
      constructor
      · simp [endCategoryRequests, hsel]
      · intro x
        simp [loadEndCategories, hsel, jsSetDedup_mem, List.mem_flatten, List.mem_map]

/-- C6 witness: of two selected categories, the "Laptops" lookup errors and
the "Phones" lookup returns ["Gaming","Ultrabook"]; the merged option list is
exactly ["Gaming","Ultrabook"] and the membership characterization holds. -/
theorem cascade_merge_witness :
    (({ initialState with selectedCategories := ["Laptops", "Phones"] } :
        ComponentState).selectedCategories ≠ []) ∧
    (loadSubCategories { initialState with selectedCategories := ["Laptops", "Phones"] }
        (fun c => if c = "Laptops" then Except.error () else
          Except.ok ["Gaming", "Ultrabook"])).subCategories = ["Gaming", "Ultrabook"] ∧
    ("Gaming" ∈ (loadSubCategories { initialState with selectedCategories := ["Laptops", "Phones"] }
        (fun c => if c = "Laptops" then Except.error () else
          Except.ok ["Gaming", "Ultrabook"])).subCategories ↔
      ∃ c ∈ ({ initialState with selectedCategories := ["Laptops", "Phones"] } :
          ComponentState).selectedCategories,
        "Gaming" ∈ cascadeResult ((fun c => if c = "Laptops" then Except.error () else
          Except.ok ["Gaming", "Ultrabook"]) c)) :=
  ⟨by decide, by decide,
   ((cascade_merge { initialState with selectedCategories := ["Laptops", "Phones"] }
      (fun c => if c = "Laptops" then Except.error () else Except.ok ["Gaming", "Ultrabook"])
      (fun _ => Except.ok [])).1 (by decide)).2 "Gaming"⟩

/-- C8: `goToPage` clamps the requested page to the interval [1, totalPages]
before fetching. -/
theorem goToPage_clamps (s : ComponentState) (inputValue : Option Int)
    (h : 1 ≤ s.totalPages) :
    1 ≤ (goToPage s inputValue).currentPage ∧
    (goToPage s inputValue).currentPage ≤ s.totalPages := by
  refine ⟨?_, ?_⟩ <;>
    rcases inputValue with _ | p <;>
      simp only [goToPage] <;> split_ifs <;> omega

/-- C8 witness: input 99 with totalPages 5 clamps to page 5. -/
theorem goToPage_clamps_witness :
    1 ≤ ({ initialState with totalPages := 5 } : ComponentState).totalPages ∧
    (1 ≤ (goToPage { initialState with totalPages := 5 } (some 99)).currentPage ∧
     (goToPage { initialState with totalPages := 5 } (some 99)).currentPage ≤
       ({ initialState with totalPages := 5 } : ComponentState).totalPages) ∧
    (goToPage { initialState with totalPages := 5 } (some 99)).currentPage = 5 :=
  ⟨by decide, goToPage_clamps { initialState with totalPages := 5 } (some 99) (by decide),
   by decide⟩

/-- C10: published cascade option lists carry no duplicate labels (the merged
lookup results pass through a `Set`), and an empty parent selection issues no
lookup requests and leaves the option list empty. -/
theorem cascade_options_invariants (s : ComponentState)
    (subLookup endLookup : String → Except Unit (List String)) :
    (loadSubCategories s subLookup).subCategories.Nodup ∧
    (loadEndCategories s endLookup).endCategories.Nodup ∧
    (s.selectedCategories = [] →
      subCategoryRequests s = [] ∧ (loadSubCategories s subLookup).subCategories = []) ∧
    (s.selectedSubCategories = [] →
      endCategoryRequests s = [] ∧ (loadEndCategories s endLookup).endCategories = []) := by
  refine ⟨?_, ?_, ?_, ?_⟩
  · simp only [loadSubCategories]
    split
    · exact List.nodup_nil
    · exact jsSetDedup_nodup _
  · simp only [loadEndCategories]
    split
    · exact List.nodup_nil
    · exact jsSetDedup_nodup _
  · intro h
    constructor
    · simp [subCategoryRequests, h]
    · simp [loadSubCategories, h]
  · intro h
    constructor
    · simp [endCategoryRequests, h]
    · simp [loadEndCategories, h]

/-- C10 witness: with no selected categories the cascade issues no requests
and publishes no options, and published lists are duplicate-free. -/
theorem cascade_options_invariants_witness :
    initialState.selectedCategories = [] ∧
    subCategoryRequests initialState = [] ∧
    (loadSubCategories initialState (fun _ => Except.ok [])).subCategories = [] ∧
    (loadSubCategories { initialState with selectedCategories := ["A", "B"] }
      (fun _ => Except.ok ["X", "X", "Y"])).subCategories.Nodup :=
  ⟨rfl,
   ((cascade_options_invariants initialState (fun _ => Except.ok [])
      (fun _ => Except.ok [])).2.2.1 rfl).1,
   ((cascade_options_invariants initialState (fun _ => Except.ok [])
      (fun _ => Except.ok [])).2.2.1 rfl).2,
   (cascade_options_invariants { initialState with selectedCategories := ["A", "B"] }
      (fun _ => Except.ok ["X", "X", "Y"]) (fun _ => Except.ok [])).1⟩
